import Mathlib

/-!
Shallow embedding of `app.py` (Ferpoks WhatsApp merchant dashboard):
multi-tenant data model (merchants, store_settings, templates, events, logs),
tenant resolution (`get_store`), default seeding (`ensure_defaults`), the
settings / template / credential save endpoints, the ad-hoc send pipeline
(`api_test_send`) and the inbound webhook recorder, plus the client-side
template preview renderer (`updatePreview`).

Tables are lists in insertion order (SQLite AUTOINCREMENT ids ascending);
`ORDER BY id DESC LIMIT 2` is `reverse.take 2`.  Python truthiness of an
optional string (`a or b`) is `py_or`.  JSON timestamps are irrelevant to the
claims and omitted.
-/

namespace FerpoksWA

/-- Python `a or b` for `a` an optional string (`dict.get` result / nullable
column): `None` and `""` are falsy, anything else wins. -/
def py_or (a : Option String) (b : String) : String :=
  match a with
  | some s => if s = "" then b else s
  | none => b

/-- A row of the `merchants` table (columns the core logic reads;
`store_domain`, OAuth tokens and plan columns are opaque to the claims). -/
structure Merchant where
  store_id : String
  waba_token : Option String
  waba_phone_id : Option String
deriving Repr, DecidableEq

/-- The parsed `settings_json` value. -/
structure SettingsVal where
  enabled : List (String × Bool)
  rate_limit_mps : Int
deriving Repr, DecidableEq

/-- A row of the `store_settings` table (UNIQUE(store_id)). -/
structure SettingsRow where
  store_id : String
  settings : SettingsVal
deriving Repr, DecidableEq

/-- A row of the `templates` table (UNIQUE(store_id, tkey)). -/
structure TemplateRow where
  store_id : String
  tkey : String
  display_name : String
  body : String
deriving Repr, DecidableEq

/-- A row of the `events` table: the appended audit entry of `/webhook`. -/
structure EventRow where
  store_id : String
  event_type : String
  payload : String
deriving Repr, DecidableEq

/-- A row of the `logs` table: the delivery-log entry of `/api/test-send`. -/
structure LogRow where
  store_id : String
  to_msisdn : String
  template : String
  status : String
  error : String
deriving Repr, DecidableEq

/-- The SQLite database state: the five tables, each in insertion order. -/
structure DB where
  merchants : List Merchant
  store_settings : List SettingsRow
  templates : List TemplateRow
  events : List EventRow
  logs : List LogRow
deriving Repr, DecidableEq

def emptyDB : DB := ⟨[], [], [], [], []⟩

/-- `GLOBAL_WABA_TOKEN` / `GLOBAL_WABA_PHONE_ID` (env vars, default `""`). -/
structure Globals where
  waba_token : String
  waba_phone_id : String
deriving Repr, DecidableEq

/-- `get_store(sid)`: explicit truthy `sid` → exact lookup
(`SELECT * FROM merchants WHERE store_id=?`, fetchone); otherwise
`SELECT * FROM merchants ORDER BY id DESC LIMIT 2` and: no row → None,
one row → that row, two rows → None (ambiguous, a sid is required). -/
def get_store (sid : Option String) (merchants : List Merchant) : Option Merchant :=
  if sid ≠ none ∧ sid ≠ some "" then
    merchants.find? (fun m => decide (some m.store_id = sid))
  else
    match merchants.reverse.take 2 with
    | [] => none
    | [m] => some m
    | _ => none

/-- `DEFAULT_SETTINGS["enabled"]`: the seven event kinds, all enabled. -/
def DEFAULT_ENABLED : List (String × Bool) :=
  [("order_created", true), ("order_paid", true), ("order_fulfilled", true),
   ("out_for_delivery", true), ("delivered", true), ("order_canceled", true),
   ("refund_created", true)]

/-- `DEFAULT_SETTINGS` of `app.py`. -/
def DEFAULT_SETTINGS : SettingsVal := ⟨DEFAULT_ENABLED, 60⟩

/-- One entry of `DEFAULT_TEMPLATES`. -/
structure TplDefault where
  tkey : String
  display_name : String
  body : String
deriving Repr, DecidableEq

/-- `DEFAULT_TEMPLATES` of `app.py` (the seven default message templates). -/
def DEFAULT_TEMPLATES : List TplDefault :=
  [⟨"order_created", "تم إنشاء الطلب", "يا {name} 🎉 تم استلام طلبك #{order_no}. رابط الطلب: {order_url}"⟩,
   ⟨"order_paid", "تم الدفع", "يا {name} ✨ تم تأكيد دفع طلبك #{order_no} ✅ سنطلعك على حالة الشحن أولاً بأول."⟩,
   ⟨"order_fulfilled", "تم الشحن", "يا {name} 📦 تم شحن طلبك #{order_no}. رقم التتبع: {tracking_no}"⟩,
   ⟨"out_for_delivery", "خارج للتسليم", "يا {name} 🚚 طلبك #{order_no} في الطريق إليك."⟩,
   ⟨"delivered", "تم التسليم", "يا {name} ✅ تم تسليم طلبك #{order_no}. نتمنى لك تجربة ممتعة."⟩,
   ⟨"order_canceled", "تم الإلغاء", "يؤسفنا إبلاغك بإلغاء طلبك #{order_no}. لأي استفسار نحن هنا دائمًا."⟩,
   ⟨"refund_created", "استرجاع", "تم فتح طلب استرجاع للطلب #{order_no}. سيتواصل فريقنا معك بالتفاصيل."⟩]

/-- `INSERT OR IGNORE INTO store_settings` under `UNIQUE(store_id)`: a row
with a conflicting `store_id` makes the insert a no-op. -/
def insert_or_ignore_settings (row : SettingsRow) (tbl : List SettingsRow) :
    List SettingsRow :=
  if tbl.any (fun r => decide (r.store_id = row.store_id)) then tbl else tbl ++ [row]

/-- `INSERT OR IGNORE INTO templates` under `UNIQUE(store_id, tkey)`. -/
def insert_or_ignore_template (row : TemplateRow) (tbl : List TemplateRow) :
    List TemplateRow :=
  if tbl.any (fun r => decide (r.store_id = row.store_id ∧ r.tkey = row.tkey))
  then tbl else tbl ++ [row]

/-- `INSERT OR REPLACE INTO store_settings` under `UNIQUE(store_id)`: the
conflicting row is deleted and the new row inserted (fresh autoincrement id,
so it lands at the end in insertion order). -/
def insert_or_replace_settings (row : SettingsRow) (tbl : List SettingsRow) :
    List SettingsRow :=
  tbl.filter (fun r => decide (r.store_id ≠ row.store_id)) ++ [row]

/-- `ensure_defaults(store_id)`: seed the settings row if absent, then
insert-or-ignore each of the seven default templates. -/
def ensure_defaults (store_id : String) (db : DB) : DB :=
  let settings' :=
    match db.store_settings.find? (fun r => decide (r.store_id = store_id)) with
    | some _ => db.store_settings
    | none => insert_or_ignore_settings ⟨store_id, DEFAULT_SETTINGS⟩ db.store_settings
  let templates' := DEFAULT_TEMPLATES.foldl
    (fun acc t => insert_or_ignore_template ⟨store_id, t.tkey, t.display_name, t.body⟩ acc)
    db.templates
  { db with store_settings := settings', templates := templates' }

/-- `GET /api/templates` (after tenant resolution): rows for the store in id
order; if there are none, run `ensure_defaults` and re-read. -/
def api_get_templates (store_id : String) (db : DB) : List TemplateRow × DB :=
  let rows := db.templates.filter (fun r => decide (r.store_id = store_id))
  if rows = [] then
    let db2 := ensure_defaults store_id db
    (db2.templates.filter (fun r => decide (r.store_id = store_id)), db2)
  else (rows, db)

/-- One submitted entry of `POST /api/templates` (`t.get("tkey")` assumed a
present string — the claims range over valid keys; the other two fields model
`t.get(...)`, absent → `none`). -/
structure TplEntry where
  tkey : String
  display_name : Option String
  body : Option String
deriving Repr, DecidableEq

/-- One iteration of the `POST /api/templates` loop:
`disp = t.get("display_name") or tkey`, `txt = t.get("body") or ""`,
`INSERT OR IGNORE` the row, then `UPDATE templates SET display_name=?, body=?
WHERE store_id=? AND tkey=?`. -/
def save_template_one (store_id : String) (t : TplEntry) (tbl : List TemplateRow) :
    List TemplateRow :=
  let disp := py_or t.display_name t.tkey
  let txt := py_or t.body ""
  (insert_or_ignore_template ⟨store_id, t.tkey, disp, txt⟩ tbl).map
    (fun r => if r.store_id = store_id ∧ r.tkey = t.tkey
              then { r with display_name := disp, body := txt } else r)

/-- `POST /api/templates` (after tenant resolution): the loop over the
submitted entries. -/
def api_save_templates (store_id : String) (entries : List TplEntry)
    (tbl : List TemplateRow) : List TemplateRow :=
  entries.foldl (fun acc t => save_template_one store_id t acc) tbl

/-- `POST /api/settings` (after tenant resolution):
`enabled = body.get("enabled") or DEFAULT_SETTINGS["enabled"]` (an absent or
empty map is falsy), `rate_limit_mps = int(body.get("rate_limit_mps") or 60)`
(absent and `0` are falsy), then `INSERT OR REPLACE`. -/
def api_save_settings_core (store_id : String)
    (enabled : Option (List (String × Bool))) (rate : Option Int)
    (tbl : List SettingsRow) : List SettingsRow :=
  let en := match enabled with
    | some m => if m = [] then DEFAULT_SETTINGS.enabled else m
    | none => DEFAULT_SETTINGS.enabled
  let rl : Int := match rate with
    | some v => if v = 0 then 60 else v
    | none => 60
  insert_or_replace_settings ⟨store_id, ⟨en, rl⟩⟩ tbl

/-- `POST /api/waba` (after tenant resolution):
`wtok = body.get("waba_token") or ""`, `wpid = body.get("waba_phone_id") or ""`,
`UPDATE merchants SET waba_token=?, waba_phone_id=? WHERE store_id=?`. -/
def api_save_waba_core (store_id : String)
    (waba_token waba_phone_id : Option String) (merchants : List Merchant) :
    List Merchant :=
  let wtok := py_or waba_token ""
  let wpid := py_or waba_phone_id ""
  merchants.map (fun m => if m.store_id = store_id
    then { m with waba_token := some wtok, waba_phone_id := some wpid } else m)

/-- Python `str.strip()`: drop leading and trailing whitespace (structural
recursion over the characters, so concrete instances evaluate in the kernel). -/
def pyStrip (s : String) : String :=
  String.mk (((s.toList.dropWhile Char.isWhitespace).reverse.dropWhile Char.isWhitespace).reverse)

/-- The inbound webhook payload as the recorder reads it: the optional
`event`, `type` and `store_id` fields plus the raw serialized payload
(`json.dumps(payload)`), carried opaquely. -/
structure WebhookPayload where
  event : Option String
  type_ : Option String
  store_id : Option String
  raw : String
deriving Repr, DecidableEq

/-- `payload.get("event") or payload.get("type", "unknown")`. -/
def webhook_event_type (p : WebhookPayload) : String :=
  py_or p.event (p.type_.getD "unknown")

/-- `POST /webhook` after signature verification: append one `events` row
with `payload.get("store_id", "unknown")`, the extracted event type, and the
serialized payload. -/
def webhook (p : WebhookPayload) (db : DB) : DB :=
  { db with events :=
      db.events ++ [⟨p.store_id.getD "unknown", webhook_event_type p, p.raw⟩] }

/-- The arguments of one `send_whatsapp_text` invocation. -/
structure TransportCall where
  token : String
  phone_id : String
  to_msisdn : String
  body : String
deriving Repr, DecidableEq

/-- The transport outcome `{"status": resp.status_code, "data": ...}`
(`data` carried as an opaque serialized string). -/
structure SendResult where
  status : Int
  data : String
deriving Repr, DecidableEq

/-- The HTTP error raised by `POST /api/test-send` before any send. -/
inductive SendError where
  /-- 404 "Store not found". -/
  | storeNotFound
  /-- 400 "Missing to_msisdn/body". -/
  | invalidInput
  /-- 400 "WABA not configured for this store". -/
  | wabaNotConfigured
deriving Repr, DecidableEq

/-- `POST /api/test-send`: resolve the tenant, strip the inputs and reject
empties, resolve effective credentials (`store["waba_token"] or GLOBAL_…`,
same for the phone id) and reject if either is empty, else call the transport
once and append a `logs` row (`template="manual_test"`,
`status=str(res["status"])`, `error=json.dumps(res["data"])`, the dump carried
opaquely).  The third component records the transport calls issued. -/
def api_test_send (g : Globals) (transport : TransportCall → SendResult)
    (sid : Option String) (to_msisdn body : Option String) (db : DB) :
    Except SendError SendResult × DB × List TransportCall :=
  match get_store sid db.merchants with
  | none => (.error .storeNotFound, db, [])
  | some store =>
    let dest := pyStrip (py_or to_msisdn "")
    let msg := pyStrip (py_or body "")
    if dest = "" ∨ msg = "" then (.error .invalidInput, db, [])
    else
      let wtk := py_or store.waba_token g.waba_token
      let wpid := py_or store.waba_phone_id g.waba_phone_id
      if wtk = "" ∨ wpid = "" then (.error .wabaNotConfigured, db, [])
      else
        let call : TransportCall := ⟨wtk, wpid, dest, msg⟩
        let res := transport call
        (.ok res,
         { db with logs := db.logs ++
            [⟨store.store_id, dest, "manual_test", toString res.status, res.data⟩] },
         [call])

/-- `PLACEHOLDERS` of `app.py`. -/
def PLACEHOLDERS : List String := ["{name}", "{order_no}", "{order_url}", "{tracking_no}"]

/-- JavaScript `String.prototype.replaceAll` with a non-empty literal pattern:
left-to-right, non-overlapping, the replacement is not rescanned.  (The
placeholder patterns used here are never empty; an empty pattern is treated
as matching nowhere.) -/
def replaceAll (pat rep : List Char) : List Char → List Char
  | [] => []
  | c :: rest =>
    if h : pat ≠ [] ∧ pat.isPrefixOf (c :: rest) then
      rep ++ replaceAll pat rep ((c :: rest).drop pat.length)
    else
      c :: replaceAll pat rep rest
termination_by s => s.length
decreasing_by
  · have hp : 0 < pat.length := List.length_pos.mpr h.1
    simp [List.length_drop]
    omega
  · simp

/-- The character pattern `"{" + key + "}"` of a placeholder. -/
def placeholderPat (key : String) : List Char :=
  '{' :: key.toList ++ ['}']

/-- The template renderer: the `updatePreview` chain
`body.replaceAll('{name}', v1).replaceAll('{order_no}', v2)…` generalized to
an arbitrary placeholder-name → replacement mapping, applied left to right. -/
def render (body : String) (mapping : List (String × String)) : String :=
  String.mk (mapping.foldl
    (fun acc kv => replaceAll (placeholderPat kv.1) kv.2.toList acc) body.toList)

/-- The concrete mapping hard-coded in `updatePreview`. -/
def previewMapping : List (String × String) :=
  [("name", "عميلنا"), ("order_no", "12345"),
   ("order_url", "https://salla.sa/orders/12345"), ("tracking_no", "TRK123")]

/-- `updatePreview`: render the selected template body with the fixed
preview substitutions. -/
def updatePreview (body : String) : String := render body previewMapping

/-- `pat` occurs as a contiguous substring of `s`. -/
def hasSub (pat : List Char) : List Char → Bool
  | [] => pat.isPrefixOf []
  | c :: rest => pat.isPrefixOf (c :: rest) || hasSub pat rest

theorem get_store_truthy (s : String) (hs : s ≠ "") (ms : List Merchant) :
    get_store (some s) ms = ms.find? (fun m => decide (some m.store_id = some s)) := by
  simp [get_store, hs]

theorem get_store_nosid (ms : List Merchant) :
    get_store none ms =
      match ms.reverse.take 2 with
      | [] => none
      | [m] => some m
      | _ => none := by
  simp [get_store]

theorem get_store_empty_sid (ms : List Merchant) :
    get_store (some "") ms = get_store none ms := by
  simp [get_store]

theorem get_store_nil : get_store none ([] : List Merchant) = none := rfl

theorem get_store_singleton (m : Merchant) : get_store none [m] = some m := rfl

theorem get_store_two_le (ms : List Merchant) (h : 2 ≤ ms.length) :
    get_store none ms = none := by
  have h2 : (ms.reverse.take 2).length = 2 := by
    rw [List.length_take, List.length_reverse]
    omega
  obtain ⟨a, b, hab⟩ := List.length_eq_two.mp h2
  rw [get_store_nosid, hab]

/-- C1: with a (non-empty) explicit identifier, `get_store` returns a
merchant exactly when one has that `store_id`, and returns such a merchant;
with no identifier it peeks at only the two most recently created rows:
zero tenants → not found, exactly one → that one, two or more → not found,
and the outcome depends only on the two most recent rows. -/
theorem C1_tenant_resolution (s : String) (ms : List Merchant) (hs : s ≠ "") :
    (∀ m, get_store (some s) ms = some m → m.store_id = s ∧ m ∈ ms) ∧
    (get_store (some s) ms = none ↔ ∀ m ∈ ms, m.store_id ≠ s) ∧
    (ms = [] → get_store none ms = none) ∧
    (∀ m, ms = [m] → get_store none ms = some m) ∧
    (2 ≤ ms.length → get_store none ms = none) ∧
    (∀ ms₂ : List Merchant, ms.reverse.take 2 = ms₂.reverse.take 2 →
      get_store none ms = get_store none ms₂) := by
  refine ⟨?_, ?_, ?_, ?_, ?_, ?_⟩
  · intro m hm
    rw [get_store_truthy s hs] at hm
    have h1 := List.find?_some hm
    simp only [decide_eq_true_eq, Option.some.injEq] at h1
    exact ⟨h1, List.mem_of_find?_eq_some hm⟩
  · rw [get_store_truthy s hs, List.find?_eq_none]
    simp
  · intro h; rw [h]; rfl
  · intro m h; rw [h]; rfl
  · exact get_store_two_le ms
  · intro ms₂ h
    rw [get_store_nosid, get_store_nosid, h]

theorem C1_tenant_resolution_witness :
    get_store none [(⟨"a", none, none⟩ : Merchant), ⟨"b", none, none⟩] = none :=
  (C1_tenant_resolution "a" [⟨"a", none, none⟩, ⟨"b", none, none⟩]
    (by decide)).2.2.2.2.1 (by decide)

/-- C9: an empty-string `sid` is falsy, so resolution takes the same
no-identifier path as an absent `sid`: the two most recent rows are peeked,
a unique tenant is returned even though its `store_id` is not `""`, and zero
or several tenants give not-found. -/
theorem C9_empty_sid (ms : List Merchant) :
    get_store (some "") ms = get_store none ms ∧
    (ms = [] → get_store (some "") ms = none) ∧
    (∀ m, ms = [m] → get_store (some "") ms = some m) ∧
    (2 ≤ ms.length → get_store (some "") ms = none) := by
  refine ⟨get_store_empty_sid ms, ?_, ?_, ?_⟩
  · intro h; rw [h]; rfl
  · intro m h; rw [h]; rfl
  · intro h
    rw [get_store_empty_sid]
    exact get_store_two_le ms h

theorem C9_empty_sid_witness :
    get_store (some "") [(⟨"shop7", some "T", none⟩ : Merchant)] =
      some ⟨"shop7", some "T", none⟩ :=
  (C9_empty_sid [⟨"shop7", some "T", none⟩]).2.2.1 _ rfl

/-! ### Default seeder -/

/-- Some row for `(store_id, tkey)` is present in the templates table. -/
def hasTpl (store_id tkey : String) (tbl : List TemplateRow) : Prop :=
  ∃ r ∈ tbl, r.store_id = store_id ∧ r.tkey = tkey

theorem insert_or_ignore_template_cases (row : TemplateRow) (tbl : List TemplateRow) :
    insert_or_ignore_template row tbl = tbl ∨
    insert_or_ignore_template row tbl = tbl ++ [row] := by
  unfold insert_or_ignore_template
  split
  · exact Or.inl rfl
  · exact Or.inr rfl

theorem hasTpl_insert_self (row : TemplateRow) (tbl : List TemplateRow) :
    hasTpl row.store_id row.tkey (insert_or_ignore_template row tbl) := by
  unfold insert_or_ignore_template
  split
  · next h =>
    obtain ⟨r, hr, hp⟩ := List.any_eq_true.mp h
    simp only [decide_eq_true_eq] at hp
    exact ⟨r, hr, hp⟩
  · exact ⟨row, by simp, rfl, rfl⟩

theorem hasTpl_insert_mono (s k : String) (row : TemplateRow) (tbl : List TemplateRow)
    (h : hasTpl s k tbl) : hasTpl s k (insert_or_ignore_template row tbl) := by
  obtain ⟨r, hr, hp⟩ := h
  rcases insert_or_ignore_template_cases row tbl with hc | hc <;>
    rw [hc]
  · exact ⟨r, hr, hp⟩
  · exact ⟨r, List.mem_append_left _ hr, hp⟩

theorem insert_or_ignore_template_noop (row : TemplateRow) (tbl : List TemplateRow)
    (h : hasTpl row.store_id row.tkey tbl) : insert_or_ignore_template row tbl = tbl := by
  unfold insert_or_ignore_template
  rw [if_pos]
  obtain ⟨r, hr, h1, h2⟩ := h
  exact List.any_eq_true.mpr ⟨r, hr, by simp [h1, h2]⟩

/-- The template half of `ensure_defaults`, generalized over the seeded list. -/
def seedTemplates (store_id : String) (L : List TplDefault) (tbl : List TemplateRow) :
    List TemplateRow :=
  L.foldl (fun acc t => insert_or_ignore_template ⟨store_id, t.tkey, t.display_name, t.body⟩ acc) tbl

theorem seedTemplates_hasTpl_mono (store_id s k : String) (L : List TplDefault)
    (tbl : List TemplateRow) (h : hasTpl s k tbl) :
    hasTpl s k (seedTemplates store_id L tbl) := by
  induction L generalizing tbl with
  | nil => exact h
  | cons t L ih => exact ih _ (hasTpl_insert_mono s k _ tbl h)

theorem seedTemplates_has_all (store_id : String) (L : List TplDefault)
    (tbl : List TemplateRow) :
    ∀ t ∈ L, hasTpl store_id t.tkey (seedTemplates store_id L tbl) := by
  induction L generalizing tbl with
  | nil => intro t ht; exact absurd ht (List.not_mem_nil t)
  | cons u L ih =>
    intro t ht
    rcases List.mem_cons.mp ht with h | h
    · subst h
      exact seedTemplates_hasTpl_mono store_id _ _ L _
        (hasTpl_insert_self ⟨store_id, t.tkey, t.display_name, t.body⟩ tbl)
    · exact ih _ t h

theorem seedTemplates_noop (store_id : String) (L : List TplDefault)
    (tbl : List TemplateRow) (h : ∀ t ∈ L, hasTpl store_id t.tkey tbl) :
    seedTemplates store_id L tbl = tbl := by
  induction L with
  | nil => rfl
  | cons t L ih =>
    have h1 : insert_or_ignore_template ⟨store_id, t.tkey, t.display_name, t.body⟩ tbl = tbl :=
      insert_or_ignore_template_noop _ _ (h t (List.mem_cons_self t L))
    show seedTemplates store_id L
      (insert_or_ignore_template ⟨store_id, t.tkey, t.display_name, t.body⟩ tbl) = tbl
    rw [h1]
    exact ih (fun u hu => h u (List.mem_cons_of_mem t hu))

theorem seedTemplates_idem (store_id : String) (L : List TplDefault)
    (tbl : List TemplateRow) :
    seedTemplates store_id L (seedTemplates store_id L tbl) = seedTemplates store_id L tbl :=
  seedTemplates_noop store_id L _ (seedTemplates_has_all store_id L tbl)

theorem seedTemplates_append (store_id : String) (L : List TplDefault)
    (tbl : List TemplateRow) :
    ∃ extra, seedTemplates store_id L tbl = tbl ++ extra := by
  induction L generalizing tbl with
  | nil => exact ⟨[], by simp [seedTemplates]⟩
  | cons t L ih =>
    rcases insert_or_ignore_template_cases
      ⟨store_id, t.tkey, t.display_name, t.body⟩ tbl with hc | hc
    · obtain ⟨extra, he⟩ := ih (insert_or_ignore_template ⟨store_id, t.tkey, t.display_name, t.body⟩ tbl)
      exact ⟨extra, by simpa [seedTemplates, hc] using he⟩
    · obtain ⟨extra, he⟩ := ih (insert_or_ignore_template ⟨store_id, t.tkey, t.display_name, t.body⟩ tbl)
      refine ⟨⟨store_id, t.tkey, t.display_name, t.body⟩ :: extra, ?_⟩
      show seedTemplates store_id L
        (insert_or_ignore_template ⟨store_id, t.tkey, t.display_name, t.body⟩ tbl) = _
      rw [he, hc, List.append_assoc]
      rfl

theorem find?_append_isSome {α : Type} (p : α → Bool) (l : List α) (r : α)
    (h : p r = true) : ((l ++ [r]).find? p).isSome := by
  rw [List.find?_append]
  cases hf : l.find? p with
  | some x => simp [Option.or]
  | none => simp [Option.or, List.find?, h]

theorem ensure_defaults_templates (sid : String) (db : DB) :
    (ensure_defaults sid db).templates = seedTemplates sid DEFAULT_TEMPLATES db.templates := rfl

theorem ensure_defaults_settings_eq (sid : String) (db : DB) :
    (ensure_defaults sid db).store_settings =
      match db.store_settings.find? (fun r => decide (r.store_id = sid)) with
      | some _ => db.store_settings
      | none => insert_or_ignore_settings ⟨sid, DEFAULT_SETTINGS⟩ db.store_settings := rfl

theorem ensure_defaults_settings_isSome (sid : String) (db : DB) :
    ((ensure_defaults sid db).store_settings.find?
      (fun r => decide (r.store_id = sid))).isSome := by
  rw [ensure_defaults_settings_eq]
  cases hf : db.store_settings.find? (fun r => decide (r.store_id = sid)) with
  | some x => rw [hf]; simp
  | none =>
    have hall := List.find?_eq_none.mp hf
    have hany : db.store_settings.any (fun r => decide (r.store_id = sid)) = false := by
      rw [← Bool.not_eq_true, List.any_eq_true]
      rintro ⟨x, hx, hp⟩
      exact hall x hx hp
    unfold insert_or_ignore_settings
    rw [if_neg (by simp [hany])]
    exact find?_append_isSome _ _ _ (by simp)

/-- C2: `ensure_defaults` is idempotent — a second run returns the state of
the first run unchanged (settings and templates included) — and the seeder
only appends: every pre-existing settings row and template row survives in
place, never overwritten; the other tables are untouched. -/
theorem C2_seeder_idempotent (sid : String) (db : DB) :
    ensure_defaults sid (ensure_defaults sid db) = ensure_defaults sid db ∧
    (∃ extra, (ensure_defaults sid db).store_settings = db.store_settings ++ extra) ∧
    (∃ extra, (ensure_defaults sid db).templates = db.templates ++ extra) ∧
    (ensure_defaults sid db).merchants = db.merchants ∧
    (ensure_defaults sid db).events = db.events ∧
    (ensure_defaults sid db).logs = db.logs := by
  refine ⟨?_, ?_, ?_, rfl, rfl, rfl⟩
  · have hT : seedTemplates sid DEFAULT_TEMPLATES (ensure_defaults sid db).templates
        = (ensure_defaults sid db).templates := by
      rw [ensure_defaults_templates]
      exact seedTemplates_idem sid DEFAULT_TEMPLATES db.templates
    have hS : (match (ensure_defaults sid db).store_settings.find?
          (fun r => decide (r.store_id = sid)) with
        | some _ => (ensure_defaults sid db).store_settings
        | none => insert_or_ignore_settings ⟨sid, DEFAULT_SETTINGS⟩
            (ensure_defaults sid db).store_settings)
        = (ensure_defaults sid db).store_settings := by
      obtain ⟨x, hx⟩ := Option.isSome_iff_exists.mp (ensure_defaults_settings_isSome sid db)
      rw [hx]
    calc ensure_defaults sid (ensure_defaults sid db)
        = { ensure_defaults sid db with
            store_settings := match (ensure_defaults sid db).store_settings.find?
                (fun r => decide (r.store_id = sid)) with
              | some _ => (ensure_defaults sid db).store_settings
              | none => insert_or_ignore_settings ⟨sid, DEFAULT_SETTINGS⟩
                  (ensure_defaults sid db).store_settings,
            templates := seedTemplates sid DEFAULT_TEMPLATES
              (ensure_defaults sid db).templates } := rfl
      _ = ensure_defaults sid db := by rw [hS, hT]
  · rw [ensure_defaults_settings_eq]
    cases hf : db.store_settings.find? (fun r => decide (r.store_id = sid)) with
    | some x => exact ⟨[], by simp⟩
    | none =>
      simp only [insert_or_ignore_settings]
      by_cases hany : (db.store_settings.any fun r =>
          decide (r.store_id = (⟨sid, DEFAULT_SETTINGS⟩ : SettingsRow).store_id)) = true
      · exact ⟨[], by rw [if_pos hany]; simp⟩
      · exact ⟨[⟨sid, DEFAULT_SETTINGS⟩], by rw [if_neg hany]⟩
  · rw [ensure_defaults_templates]
    exact seedTemplates_append sid DEFAULT_TEMPLATES db.templates

/-! ### Dispatch pipeline (`/api/test-send`) -/

/-- A store with no credentials of its own, used at concrete check points. -/
def bareStore : Merchant := ⟨"s1", none, none⟩

/-- A database holding only `bareStore`. -/
def bareDB : DB := ⟨[bareStore], [], [], [], []⟩

/-- A transport stub; which stub is used never matters below. -/
def stubTransport : TransportCall → SendResult := fun _ => ⟨200, "ok"⟩

/-- C3 counterexample: a send request with missing credentials at both levels
but an empty destination fails with `InvalidInput`, not `CredentialsMissing`
— the code checks the inputs before the credentials, so the claim's
"fails with CredentialsMissing" is false for this request (though the state
is indeed unchanged and no transport call is issued). -/
theorem C3_counterexample :
    api_test_send ⟨"", ""⟩ stubTransport (some "s1") (some "") (some "hello") bareDB
      = (.error .invalidInput, bareDB, []) ∧
    SendError.invalidInput ≠ SendError.wabaNotConfigured := by
  constructor
  · rfl
  · decide

/-- C3 (amended: the destination and body must additionally be non-empty
after stripping): when neither store-level nor global credentials provide a
token and a phone id, the pipeline fails with `CredentialsMissing`, the
database (in particular the delivery log) is unchanged, and no transport
call is issued. -/
theorem C3_credentials_missing (g : Globals) (transport : TransportCall → SendResult)
    (sid to_msisdn body : Option String) (db : DB) (store : Merchant)
    (hstore : get_store sid db.merchants = some store)
    (htok : py_or store.waba_token g.waba_token = "")
    (hpid : py_or store.waba_phone_id g.waba_phone_id = "")
    (hto : pyStrip (py_or to_msisdn "") ≠ "")
    (hbody : pyStrip (py_or body "") ≠ "") :
    api_test_send g transport sid to_msisdn body db
      = (.error .wabaNotConfigured, db, []) := by
  simp [api_test_send, hstore, hto, hbody, htok, hpid]

theorem C3_credentials_missing_witness :
    api_test_send ⟨"", ""⟩ stubTransport (some "s1") (some "9665X") (some "hello") bareDB
      = (.error .wabaNotConfigured, bareDB, []) :=
  C3_credentials_missing ⟨"", ""⟩ stubTransport (some "s1") (some "9665X") (some "hello")
    bareDB bareStore (by decide) rfl rfl (by decide) (by decide)

/-- C4 counterexample: with credentials missing at both levels AND an empty
body, the pipeline fails with `InvalidInput` — not `CredentialsMissing` as
the claim (and §4.6's ordering) states: in `api_test_send` the
`to_msisdn`/`body` validation comes first. -/
theorem C4_counterexample :
    api_test_send ⟨"", ""⟩ stubTransport (some "s1") (some "9665X") (some "") bareDB
      = (.error .invalidInput, bareDB, []) ∧
    SendError.invalidInput ≠ SendError.wabaNotConfigured := by
  constructor
  · rfl
  · decide

/-- C4 (amended: the checks run in the opposite order): input validation
precedes the credential check, so a request with missing credentials and an
empty (stripped) destination or body fails with `InvalidInput`, with no
state change and no transport call. -/
theorem C4_validation_precedes_credentials (g : Globals)
    (transport : TransportCall → SendResult)
    (sid to_msisdn body : Option String) (db : DB) (store : Merchant)
    (hstore : get_store sid db.merchants = some store)
    (htok : py_or store.waba_token g.waba_token = "")
    (hpid : py_or store.waba_phone_id g.waba_phone_id = "")
    (hempty : pyStrip (py_or to_msisdn "") = "" ∨ pyStrip (py_or body "") = "") :
    api_test_send g transport sid to_msisdn body db
      = (.error .invalidInput, db, []) := by
  rcases hempty with h | h <;> simp [api_test_send, hstore, h]

/-! ### Settings save (`POST /api/settings`) -/

/-- C6 counterexample: a supplied rate limit of `0` is NOT stored as given —
`int(body.get("rate_limit_mps") or 60)` treats `0` as falsy and stores `60`. -/
theorem C6_counterexample :
    api_save_settings_core "s1" (some [("order_created", true)]) (some 0) []
      = [⟨"s1", ⟨[("order_created", true)], 60⟩⟩] ∧ (0 : Int) ≠ 60 := by
  constructor
  · rfl
  · decide

/-- C6 (amended: the rate limit defaults to 60 on absence or on a falsy
(zero) supplied value; other supplied values are stored as given): a settings
save stores exactly one row for the tenant, whose enabled-map is the full
seven-kind all-true default when the submitted map is absent or empty and the
submitted map otherwise, and whose rate limit follows the falsy-default; rows
of other tenants are untouched and the previous row for the tenant is gone
(full replace). -/
theorem C6_settings_save (sid : String) (enabled : Option (List (String × Bool)))
    (rate : Option Int) (tbl : List SettingsRow) :
    ∃ S : SettingsVal,
      (api_save_settings_core sid enabled rate tbl).filter
        (fun r => decide (r.store_id = sid)) = [⟨sid, S⟩] ∧
      ((enabled = none ∨ enabled = some []) → S.enabled = DEFAULT_ENABLED) ∧
      (DEFAULT_ENABLED.length = 7 ∧ ∀ kv ∈ DEFAULT_ENABLED, kv.2 = true) ∧
      (∀ m, m ≠ [] → enabled = some m → S.enabled = m) ∧
      ((rate = none ∨ rate = some 0) → S.rate_limit_mps = 60) ∧
      (∀ v : Int, v ≠ 0 → rate = some v → S.rate_limit_mps = v) ∧
      (∀ s', s' ≠ sid →
        (api_save_settings_core sid enabled rate tbl).filter
          (fun r => decide (r.store_id = s')) =
        tbl.filter (fun r => decide (r.store_id = s'))) := by
  refine ⟨⟨(match enabled with
            | some m => if m = [] then DEFAULT_SETTINGS.enabled else m
            | none => DEFAULT_SETTINGS.enabled),
           (match rate with
            | some v => if v = 0 then 60 else v
            | none => 60)⟩, ?_, ?_, ?_, ?_, ?_, ?_, ?_⟩
  · simp only [api_save_settings_core, insert_or_replace_settings]
    rw [List.filter_append, List.filter_filter]
    have h1 : tbl.filter
        (fun a => decide (a.store_id = sid) && decide (a.store_id ≠ sid)) = [] := by
      rw [List.filter_eq_nil_iff]
      intro a _
      by_cases h : a.store_id = sid <;> simp [h]
    rw [h1]
    simp
  · rintro (h | h) <;> subst h <;> rfl
  · exact ⟨rfl, by decide⟩
  · intro m hm he
    subst he
    simp [hm]
  · rintro (h | h) <;> subst h <;> rfl
  · intro v hv he
    subst he
    simp [hv]
  · intro s' hs'
    simp only [api_save_settings_core, insert_or_replace_settings]
    rw [List.filter_append, List.filter_filter]
    have h1 : tbl.filter
        (fun a => decide (a.store_id = s') && decide (a.store_id ≠ sid)) =
        tbl.filter (fun a => decide (a.store_id = s')) := by
      apply List.filter_congr
      intro a _
      by_cases h : a.store_id = s' <;> simp [h, hs']
    rw [h1]
    have hne : sid ≠ s' := fun h => hs' h.symm
    simp [hne]

theorem C6_settings_save_witness :
    (api_save_settings_core "s1" none none []).filter
      (fun r => decide (r.store_id = "s1")) = [⟨"s1", ⟨DEFAULT_ENABLED, 60⟩⟩] := by
  obtain ⟨S, h1, h2, _h3, _h4, h5, _h6, _h7⟩ := C6_settings_save "s1" none none []
  have he := h2 (Or.inl rfl)
  have hr := h5 (Or.inl rfl)
  cases S with
  | mk en rl =>
    simp only at he hr
    rw [he, hr] at h1
    exact h1

theorem C4_validation_precedes_credentials_witness :
    api_test_send ⟨"", ""⟩ stubTransport (some "s1") (some "") (some "hi") bareDB
      = (.error .invalidInput, bareDB, []) :=
  C4_validation_precedes_credentials ⟨"", ""⟩ stubTransport (some "s1") (some "") (some "hi")
    bareDB bareStore (by decide) rfl rfl (Or.inl rfl)

/-! ### Inbound event recording (`POST /webhook`) -/

/-- C8 counterexample: a payload whose `event` field is present but empty is
recorded with the `type` field's value — `payload.get("event") or
payload.get("type", "unknown")` falls through on a falsy present value, so
"first present field wins" is false. -/
theorem C8_counterexample :
    (webhook ⟨some "", some "x", none, "r"⟩ emptyDB).events = [⟨"unknown", "x", "r"⟩] ∧
    (⟨some "", some "x", none, "r"⟩ : WebhookPayload).event = some "" ∧
    ("x" : String) ≠ "" := by
  refine ⟨rfl, rfl, by decide⟩

/-- C8 (amended: the event-type is the `event` field when present and
NON-EMPTY, else the `type` field when present, else `"unknown"`): every
verified inbound payload appends exactly one event-log entry, whose store_id
is the payload's `store_id` or the sentinel `"unknown"` when absent, whose
payload column preserves the raw payload, and whose event-type follows the
truthiness-based extraction; no other table changes. -/
theorem C8_event_recording (p : WebhookPayload) (db : DB) :
    ∃ E : EventRow,
      (webhook p db).events = db.events ++ [E] ∧
      E.payload = p.raw ∧
      (∀ s, p.store_id = some s → E.store_id = s) ∧
      (p.store_id = none → E.store_id = "unknown") ∧
      (∀ e, p.event = some e → e ≠ "" → E.event_type = e) ∧
      ((p.event = none ∨ p.event = some "") →
        ∀ t, p.type_ = some t → E.event_type = t) ∧
      ((p.event = none ∨ p.event = some "") →
        p.type_ = none → E.event_type = "unknown") ∧
      (webhook p db).merchants = db.merchants ∧
      (webhook p db).store_settings = db.store_settings ∧
      (webhook p db).templates = db.templates ∧
      (webhook p db).logs = db.logs := by
  refine ⟨⟨p.store_id.getD "unknown", webhook_event_type p, p.raw⟩,
    rfl, rfl, ?_, ?_, ?_, ?_, ?_, rfl, rfl, rfl, rfl⟩
  · intro s hs
    simp [hs]
  · intro hs
    simp [hs]
  · intro e he hne
    simp [webhook_event_type, py_or, he, hne]
  · rintro (h | h) <;> intro t ht <;> simp [webhook_event_type, py_or, h, ht]
  · rintro (h | h) <;> intro ht <;> simp [webhook_event_type, py_or, h, ht]

theorem C8_event_recording_witness :
    (webhook ⟨some "order_paid", some "x", some "st9", "RAW"⟩ emptyDB).events =
      [⟨"st9", "order_paid", "RAW"⟩] := by
  obtain ⟨E, h1, h2, h3, _h4, h5, _h6, _h7, _⟩ :=
    C8_event_recording ⟨some "order_paid", some "x", some "st9", "RAW"⟩ emptyDB
  have hs := h3 "st9" rfl
  have he := h5 "order_paid" rfl (by decide)
  cases E with
  | mk a b c =>
    simp only at hs he h2
    rw [hs, he, h2] at h1
    exact h1

/-! ### Credential save and empty-credential fallback -/

theorem save_waba_mem (store_id : String) (tok pid : Option String)
    (ms : List Merchant) (m : Merchant)
    (hm : m ∈ api_save_waba_core store_id tok pid ms) (hsid : m.store_id = store_id) :
    m.waba_token = some (py_or tok "") ∧ m.waba_phone_id = some (py_or pid "") := by
  simp only [api_save_waba_core] at hm
  obtain ⟨m₀, hm₀, hmap⟩ := List.mem_map.mp hm
  by_cases h : m₀.store_id = store_id
  · rw [if_pos h] at hmap
    subst hmap
    exact ⟨rfl, rfl⟩
  · rw [if_neg h] at hmap
    subst hmap
    exact absurd hsid h

/-- C10: `/api/waba` stores `body.get(...) or ""` — so omitted (or empty)
credential fields are stored as the empty string — and in the dispatch
pipeline an empty-string store credential is falsy and falls back to the
process-wide default; hence after saving empty credentials, a test send on
that store issues its one transport call with the global token and phone id. -/
theorem C10_empty_credentials_fallback (g : Globals)
    (transport : TransportCall → SendResult) (db : DB) (s : String)
    (toM b : Option String) (m : Merchant) (hs : s ≠ "")
    (hres : get_store (some s) (api_save_waba_core s none none db.merchants) = some m)
    (hto : pyStrip (py_or toM "") ≠ "") (hb : pyStrip (py_or b "") ≠ "")
    (hg1 : g.waba_token ≠ "") (hg2 : g.waba_phone_id ≠ "") :
    m.waba_token = some "" ∧ m.waba_phone_id = some "" ∧
    py_or m.waba_token g.waba_token = g.waba_token ∧
    py_or m.waba_phone_id g.waba_phone_id = g.waba_phone_id ∧
    (api_test_send g transport (some s) toM b
        { db with merchants := api_save_waba_core s none none db.merchants }).2.2
      = [⟨g.waba_token, g.waba_phone_id, pyStrip (py_or toM ""), pyStrip (py_or b "")⟩] := by
  have hres' := hres
  rw [get_store_truthy s hs] at hres'
  have hmem := List.mem_of_find?_eq_some hres'
  have hpred := List.find?_some hres'
  simp only [decide_eq_true_eq, Option.some.injEq] at hpred
  obtain ⟨h1, h2⟩ := save_waba_mem s none none db.merchants m hmem hpred
  simp only [py_or] at h1 h2
  have hfb1 : py_or m.waba_token g.waba_token = g.waba_token := by
    rw [h1]; simp [py_or]
  have hfb2 : py_or m.waba_phone_id g.waba_phone_id = g.waba_phone_id := by
    rw [h2]; simp [py_or]
  refine ⟨h1, h2, hfb1, hfb2, ?_⟩
  have hres2 : get_store (some s)
      ({ db with merchants := api_save_waba_core s none none db.merchants }).merchants
      = some m := hres
  simp [api_test_send, hres2, hto, hb, hfb1, hfb2, hg1, hg2]

theorem C10_empty_credentials_fallback_witness :
    (⟨"s1", some "", some ""⟩ : Merchant).waba_token = some "" ∧
    (⟨"s1", some "", some ""⟩ : Merchant).waba_phone_id = some "" ∧
    py_or (some "") "GT" = "GT" ∧
    py_or (some "") "GP" = "GP" ∧
    (api_test_send ⟨"GT", "GP"⟩ stubTransport (some "s1") (some "9665X") (some "hi")
        { (⟨[⟨"s1", some "OLD", some "OLDP"⟩], [], [], [], []⟩ : DB) with
          merchants := api_save_waba_core "s1" none none
            [⟨"s1", some "OLD", some "OLDP"⟩] }).2.2
      = [⟨"GT", "GP", pyStrip (py_or (some "9665X") ""), pyStrip (py_or (some "hi") "")⟩] :=
  C10_empty_credentials_fallback ⟨"GT", "GP"⟩ stubTransport
    ⟨[⟨"s1", some "OLD", some "OLDP"⟩], [], [], [], []⟩ "s1" (some "9665X") (some "hi")
    ⟨"s1", some "", some ""⟩ (by decide) (by decide) (by decide) (by decide)
    (by decide) (by decide)

/-! ### Template save (`POST /api/templates`) -/

theorem save_template_one_eq (sid : String) (t : TplEntry) (tbl : List TemplateRow) :
    save_template_one sid t tbl =
      (insert_or_ignore_template ⟨sid, t.tkey, py_or t.display_name t.tkey, py_or t.body ""⟩ tbl).map
        (fun r => if r.store_id = sid ∧ r.tkey = t.tkey
          then { r with display_name := py_or t.display_name t.tkey, body := py_or t.body "" }
          else r) := rfl

/-- A row for `(sid, k)` exists and every row for `(sid, k)` carries
display-name `d` and body `b`. -/
def keyHasContent (sid k d b : String) (tbl : List TemplateRow) : Prop :=
  (∃ r ∈ tbl, r.store_id = sid ∧ r.tkey = k) ∧
  (∀ r ∈ tbl, r.store_id = sid → r.tkey = k →
    r.display_name = d ∧ r.body = b)

theorem save_one_content (sid : String) (t : TplEntry) (tbl : List TemplateRow) :
    keyHasContent sid t.tkey (py_or t.display_name t.tkey) (py_or t.body "")
      (save_template_one sid t tbl) := by
  rw [save_template_one_eq]
  constructor
  · obtain ⟨r, hr, h1, h2⟩ := hasTpl_insert_self
      ⟨sid, t.tkey, py_or t.display_name t.tkey, py_or t.body ""⟩ tbl
    refine ⟨_, List.mem_map.mpr ⟨r, hr, rfl⟩, ?_⟩
    simp [h1, h2]
  · intro r' hr' hs hk
    obtain ⟨r₀, h0, hmap⟩ := List.mem_map.mp hr'
    by_cases hc : r₀.store_id = sid ∧ r₀.tkey = t.tkey
    · rw [if_pos hc] at hmap
      subst hmap
      exact ⟨rfl, rfl⟩
    · rw [if_neg hc] at hmap
      subst hmap
      exact absurd ⟨hs, hk⟩ hc

theorem save_one_preserves_key (sid k d b : String) (t : TplEntry)
    (tbl : List TemplateRow) (hk : t.tkey ≠ k) (h : keyHasContent sid k d b tbl) :
    keyHasContent sid k d b (save_template_one sid t tbl) := by
  obtain ⟨⟨r, hr, h1, h2⟩, hall⟩ := h
  rw [save_template_one_eq]
  constructor
  · have hr1 : r ∈ insert_or_ignore_template
        ⟨sid, t.tkey, py_or t.display_name t.tkey, py_or t.body ""⟩ tbl := by
      rcases insert_or_ignore_template_cases
        ⟨sid, t.tkey, py_or t.display_name t.tkey, py_or t.body ""⟩ tbl with hc | hc <;>
        rw [hc]
      · exact hr
      · exact List.mem_append_left _ hr
    have hcond : ¬(r.store_id = sid ∧ r.tkey = t.tkey) := by
      rintro ⟨_, hkk⟩
      rw [hkk] at h2
      exact hk h2
    refine ⟨_, List.mem_map.mpr ⟨r, hr1, rfl⟩, ?_⟩
    rw [if_neg hcond]
    exact ⟨h1, h2⟩
  · intro r' hr' hs hkr
    obtain ⟨r₀, h0, hmap⟩ := List.mem_map.mp hr'
    by_cases hc : r₀.store_id = sid ∧ r₀.tkey = t.tkey
    · rw [if_pos hc] at hmap
      subst hmap
      exact absurd (hc.2.symm.trans hkr) hk
    · rw [if_neg hc] at hmap
      subst hmap
      rcases insert_or_ignore_template_cases
        ⟨sid, t.tkey, py_or t.display_name t.tkey, py_or t.body ""⟩ tbl with hi | hi <;>
        rw [hi] at h0
      · exact hall r₀ h0 hs hkr
      · rcases List.mem_append.mp h0 with h0' | h0'
        · exact hall r₀ h0' hs hkr
        · have : r₀ = ⟨sid, t.tkey, py_or t.display_name t.tkey, py_or t.body ""⟩ :=
            List.mem_singleton.mp h0'
          subst this
          exact absurd hkr hk

theorem save_fold_preserves_key (sid k d b : String) (l : List TplEntry)
    (hl : ∀ x ∈ l, x.tkey ≠ k) (tbl : List TemplateRow)
    (h : keyHasContent sid k d b tbl) :
    keyHasContent sid k d b (api_save_templates sid l tbl) := by
  induction l generalizing tbl with
  | nil => exact h
  | cons t l ih =>
    exact ih (fun x hx => hl x (List.mem_cons_of_mem t hx)) _
      (save_one_preserves_key sid k d b t tbl (hl t (List.mem_cons_self t l)) h)

theorem filter_save_one (sid : String) (t : TplEntry) (tbl : List TemplateRow)
    (q : TemplateRow → Bool)
    (hdep : ∀ (r : TemplateRow) (d b : String),
      q { r with display_name := d, body := b } = q r)
    (hrow : q ⟨sid, t.tkey, py_or t.display_name t.tkey, py_or t.body ""⟩ = false)
    (hupd : ∀ r, q r = true → ¬(r.store_id = sid ∧ r.tkey = t.tkey)) :
    (save_template_one sid t tbl).filter q = tbl.filter q := by
  rw [save_template_one_eq]
  have step2 : ∀ l : List TemplateRow,
      (l.map (fun r => if r.store_id = sid ∧ r.tkey = t.tkey
        then { r with display_name := py_or t.display_name t.tkey, body := py_or t.body "" }
        else r)).filter q = l.filter q := by
    intro l
    induction l with
    | nil => rfl
    | cons r l ih =>
      simp only [List.map_cons, List.filter_cons]
      by_cases hc : r.store_id = sid ∧ r.tkey = t.tkey
      · have hqr : q r = false := by
          cases hq : q r
          · rfl
          · exact absurd hc (hupd r hq)
        rw [if_pos hc, hdep, hqr]
        simp only [Bool.false_eq_true, if_false]
        exact ih
      · rw [if_neg hc]
        cases hq : q r
        · simp only [Bool.false_eq_true, if_false]
          exact ih
        · simp only [if_true]
          rw [ih]
  rcases insert_or_ignore_template_cases
    ⟨sid, t.tkey, py_or t.display_name t.tkey, py_or t.body ""⟩ tbl with hc | hc <;>
    rw [hc, step2]
  rw [List.filter_append]
  simp [List.filter_cons, hrow]

theorem filter_save_fold (sid : String) (entries : List TplEntry)
    (tbl : List TemplateRow) (q : TemplateRow → Bool)
    (hdep : ∀ (r : TemplateRow) (d b : String),
      q { r with display_name := d, body := b } = q r)
    (hrows : ∀ t ∈ entries,
      q ⟨sid, t.tkey, py_or t.display_name t.tkey, py_or t.body ""⟩ = false)
    (hupds : ∀ t ∈ entries, ∀ r, q r = true → ¬(r.store_id = sid ∧ r.tkey = t.tkey)) :
    (api_save_templates sid entries tbl).filter q = tbl.filter q := by
  induction entries generalizing tbl with
  | nil => rfl
  | cons t l ih =>
    calc (api_save_templates sid (t :: l) tbl).filter q
        = (api_save_templates sid l (save_template_one sid t tbl)).filter q := rfl
      _ = (save_template_one sid t tbl).filter q :=
          ih (save_template_one sid t tbl)
             (fun u hu => hrows u (List.mem_cons_of_mem t hu))
             (fun u hu => hupds u (List.mem_cons_of_mem t hu))
      _ = tbl.filter q :=
          filter_save_one sid t tbl q hdep (hrows t (List.mem_cons_self t l))
            (hupds t (List.mem_cons_self t l))

/-- C5 counterexample: a submitted empty display name is NOT stored as
submitted — `disp = t.get("display_name") or tkey` replaces a falsy (empty)
display name by the key, so the saved row carries `"k1"`, not `""`. -/
theorem C5_counterexample :
    api_save_templates "s1" [⟨"k1", some "", some "B"⟩] [] = [⟨"s1", "k1", "k1", "B"⟩] ∧
    ("k1" : String) ≠ "" := ⟨rfl, by decide⟩

/-- C5 (amended: `display_name` is set to the submitted value only when that
value is truthy (non-empty), otherwise to the key; `body` to the submitted
value with absent/empty → `""`): after a save whose last entry for key `k` is
`e`, a row for `(sid, k)` exists, every row for `(sid, k)` carries the
coerced display name and body (so re-reading the tenant's templates returns
exactly that body for that key, and the read endpoint does not reseed), and
every `(store, key)` pair that is another tenant's or whose key is not in the
submitted list has its rows unchanged. -/
theorem C5_template_save (sid k : String) (e : TplEntry)
    (l₁ l₂ entries : List TplEntry) (tbl : List TemplateRow)
    (hent : entries = l₁ ++ e :: l₂) (he : e.tkey = k)
    (hl₂ : ∀ x ∈ l₂, x.tkey ≠ k) :
    (∃ r ∈ api_save_templates sid entries tbl, r.store_id = sid ∧ r.tkey = k) ∧
    (∀ r ∈ api_save_templates sid entries tbl, r.store_id = sid → r.tkey = k →
      r.display_name = py_or e.display_name k ∧ r.body = py_or e.body "") ∧
    (∀ db : DB, db.templates = api_save_templates sid entries tbl →
      (∃ r ∈ (api_get_templates sid db).1,
        r.store_id = sid ∧ r.tkey = k ∧ r.body = py_or e.body "") ∧
      (∀ r ∈ (api_get_templates sid db).1, r.tkey = k → r.body = py_or e.body "")) ∧
    (∀ s' k', (s' ≠ sid ∨ ∀ x ∈ entries, x.tkey ≠ k') →
      (api_save_templates sid entries tbl).filter
        (fun r => decide (r.store_id = s' ∧ r.tkey = k')) =
      tbl.filter (fun r => decide (r.store_id = s' ∧ r.tkey = k'))) := by
  subst he
  have hmain : keyHasContent sid e.tkey (py_or e.display_name e.tkey) (py_or e.body "")
      (api_save_templates sid entries tbl) := by
    subst hent
    have h1 : api_save_templates sid (l₁ ++ e :: l₂) tbl
        = api_save_templates sid l₂
            (save_template_one sid e (api_save_templates sid l₁ tbl)) := by
      simp [api_save_templates, List.foldl_append]
    rw [h1]
    exact save_fold_preserves_key sid e.tkey _ _ l₂ hl₂ _
      (save_one_content sid e (api_save_templates sid l₁ tbl))
  refine ⟨hmain.1, fun r hr hs hk => hmain.2 r hr hs hk, ?_, ?_⟩
  · intro db hdb
    have hrows_ne : db.templates.filter (fun r => decide (r.store_id = sid)) ≠ [] := by
      obtain ⟨r, hr, hs, _⟩ := hmain.1
      intro hnil
      rw [List.filter_eq_nil_iff] at hnil
      refine hnil r ?_ (by simp [hs])
      rw [hdb]
      exact hr
    have hget : (api_get_templates sid db).1
        = db.templates.filter (fun r => decide (r.store_id = sid)) := by
      simp [api_get_templates, hrows_ne]
    constructor
    · obtain ⟨r, hr, hs, hk⟩ := hmain.1
      refine ⟨r, ?_, hs, hk, (hmain.2 r hr hs hk).2⟩
      rw [hget, List.mem_filter]
      refine ⟨?_, by simp [hs]⟩
      rw [hdb]
      exact hr
    · intro r hr hk
      rw [hget, List.mem_filter] at hr
      obtain ⟨hrmem, hs⟩ := hr
      simp only [decide_eq_true_eq] at hs
      have hrmem' : r ∈ api_save_templates sid entries tbl := by
        rw [← hdb]
        exact hrmem
      exact (hmain.2 r hrmem' hs hk).2
  · intro s' k' hcase
    apply filter_save_fold
    · intro r d b
      rfl
    · intro t ht
      simp only [decide_eq_false_iff_not]
      rintro ⟨h1, h2⟩
      rcases hcase with hcase | hcase
      · exact hcase h1.symm
      · exact hcase t ht h2
    · intro t ht r hq
      simp only [decide_eq_true_eq] at hq
      rintro ⟨ha, hb⟩
      rcases hcase with hcase | hcase
      · exact hcase (hq.1.symm.trans ha)
      · exact hcase t ht (hb.symm.trans hq.2)

theorem C5_template_save_witness :
    ∃ r ∈ api_save_templates "s1" [⟨"order_paid", some "اسم", some "B1"⟩] [],
      r.store_id = "s1" ∧ r.tkey = "order_paid" :=
  (C5_template_save "s1" "order_paid" ⟨"order_paid", some "اسم", some "B1"⟩ [] []
    [⟨"order_paid", some "اسم", some "B1"⟩] [] rfl rfl (by simp)).1

/-! ### Template renderer -/

theorem replaceAll_no_occur (pat rep : List Char) :
    ∀ s : List Char, hasSub pat s = false → replaceAll pat rep s = s := by
  intro s
  induction s with
  | nil => intro _; rw [replaceAll]
  | cons c rest ih =>
    intro h
    have h' : (pat.isPrefixOf (c :: rest) || hasSub pat rest) = false := h
    rw [Bool.or_eq_false_iff] at h'
    rw [replaceAll, dif_neg (by rintro ⟨_, hp⟩; exact absurd hp (by simp [h'.1]))]
    rw [ih h'.2]

theorem foldl_render_no_occur (m : List (String × String)) :
    ∀ s : List Char, (∀ kv ∈ m, hasSub (placeholderPat kv.1) s = false) →
      m.foldl (fun acc kv => replaceAll (placeholderPat kv.1) kv.2.toList acc) s = s := by
  induction m with
  | nil => intro s _; rfl
  | cons kv m ih =>
    intro s h
    rw [List.foldl_cons,
      replaceAll_no_occur (placeholderPat kv.1) kv.2.toList s (h kv (List.mem_cons_self kv m))]
    exact ih s (fun u hu => h u (List.mem_cons_of_mem kv hu))

/-- C7: the renderer is pure and substitutes only supplied keys — rendering
with the empty mapping is the identity on every body, and more generally any
body containing no occurrence of a mapped placeholder (in particular a body
holding only unrecognized tokens such as `"{foo}"`) is returned verbatim. -/
theorem C7_renderer_round_trip :
    (∀ body : String, render body [] = body) ∧
    (∀ (body : String) (m : List (String × String)),
      (∀ kv ∈ m, hasSub (placeholderPat kv.1) body.toList = false) →
      render body m = body) := by
  constructor
  · intro body
    cases body with
    | mk data => rfl
  · intro body m h
    unfold render
    rw [foldl_render_no_occur m body.toList h]
    cases body with
    | mk data => rfl

theorem C7_renderer_round_trip_witness :
    updatePreview "أهلاً {foo} والرمز {bar}" = "أهلاً {foo} والرمز {bar}" :=
  C7_renderer_round_trip.2 "أهلاً {foo} والرمز {bar}" previewMapping (by decide)

end FerpoksWA
